import Mathlib

/-!
# Verification of the Sure.Financial credit-card statement parser

Shallow embedding of `src/sure-financials.py`: a router that detects which
card issuer produced a statement's text, five issuer-specific parser classes
built from regular-expression field extractions, and a facade
(`parse_credit_card_statement`) that assembles the result record or an error
record.

The Python `re` module usage in the source is restricted to patterns whose
repetition operators only ever apply to single-character classes, so the
embedding provides a small executable backtracking regex engine
(`mtch`/`searchCap`) faithful to Python `re.search` semantics for exactly that
fragment: leftmost match, greedy/lazy repetition with backtracking, ordered
alternation, one capturing group, and the `re.IGNORECASE` flag.
-/

/-! ## ASCII case model (Python `str.upper()` / `str.lower()` on ASCII text) -/

/-- Model of Python `str.upper()` on one ASCII character. -/
def pyToUpper (c : Char) : Char :=
  if 97 ≤ c.toNat ∧ c.toNat ≤ 122 then Char.ofNat (c.toNat - 32) else c

/-- Model of Python `str.lower()` on one ASCII character. -/
def pyToLower (c : Char) : Char :=
  if 65 ≤ c.toNat ∧ c.toNat ≤ 90 then Char.ofNat (c.toNat + 32) else c

/-- Model of Python `str.upper()` on a string. -/
def upperS (s : String) : String := String.mk (s.data.map pyToUpper)

/-! ## Substring containment (Python `needle in haystack`) -/

/-- `isPrefixL n h` is true when the list `n` is an initial segment of `h`. -/
def isPrefixL : List Char → List Char → Bool
  | [], _ => true
  | _ :: _, [] => false
  | a :: as, b :: bs => a == b && isPrefixL as bs

/-- `containsL needle hay`: `needle` occurs as a contiguous run inside `hay`. -/
def containsL (needle : List Char) : List Char → Bool
  | [] => isPrefixL needle []
  | c :: t => isPrefixL needle (c :: t) || containsL needle t

/-- Model of the Python substring test `needle in hay`. -/
def containsS (needle hay : String) : Bool := containsL needle.data hay.data

/-! ## Character classes of the regular expressions used by the source -/

/-- Character classes appearing in the source's patterns: literal characters,
`\d`, `\s`, `.`, ranges such as `A-Z`, and unions such as `[X\d]`. -/
inductive CClass where
  | lit (c : Char)
  | digit
  | space
  | dot
  | rng (lo hi : Char)
  | union (a b : CClass)

/-- Case-sensitive membership of a character in a class. `\s` is the ASCII
whitespace set, `\d` the ASCII digits, `.` anything but a newline. -/
def CClass.memCS : CClass → Char → Bool
  | .lit d, c => c == d
  | .digit, c => 48 ≤ c.toNat && c.toNat ≤ 57
  | .space, c => c == ' ' || c == '\t' || c == '\n' || c == '\r' ||
      c == '\x0b' || c == '\x0c'
  | .dot, c => c != '\n'
  | .rng lo hi, c => lo.toNat ≤ c.toNat && c.toNat ≤ hi.toNat
  | .union a b, c => a.memCS c || b.memCS c

/-- Membership under a case flag: with `re.IGNORECASE` a character matches a
class when the character itself or one of its case variants does. -/
def CClass.mem (ci : Bool) (cl : CClass) (c : Char) : Bool :=
  cl.memCS c || (ci && (cl.memCS (pyToLower c) || cl.memCS (pyToUpper c)))

/-! ## Regex abstract syntax and backtracking matcher -/

/-- Regular expressions of the fragment used by the source. Repetition
(`rep cl lo hi lazy`) applies only to a single-character class, which covers
every `*`, `+`, `{n}`, `{n,m}`, `*?` in the source; `?` over larger bodies is
encoded as `alt body eps`. `group` is the (unique) capturing group. -/
inductive Regex where
  | eps
  | cls (cl : CClass)
  | seq (a b : Regex)
  | alt (a b : Regex)
  | rep (cl : CClass) (lo : Nat) (hi : Option Nat) (lazy : Bool)
  | group (r : Regex)

/-- The captured text of the (single) group, once set. -/
abbrev Cap := Option (List Char)

/-- Length of the longest prefix of `s` whose characters all belong to `cl`. -/
def runLen (ci : Bool) (cl : CClass) : List Char → Nat
  | [] => 0
  | c :: s => if cl.mem ci c then runLen ci cl s + 1 else 0

/-- Try each candidate repetition count in order, handing the rest of the
input to the continuation; first success wins (backtracking order). -/
def tryCounts (k : List Char → Option Cap) (s : List Char) :
    List Nat → Option Cap
  | [] => none
  | n :: rest =>
    match k (s.drop n) with
    | some c => some c
    | none => tryCounts k s rest

/-- Candidate counts `lo, lo+1, …, hi` (lazy order). -/
def countsUp (lo hi : Nat) : List Nat := List.range' lo (hi + 1 - lo)

/-- Candidate counts `hi, hi-1, …, lo` (greedy order). -/
def countsDown (lo hi : Nat) : List Nat := (countsUp lo hi).reverse

/-- Largest repetition count available at `s`: the leading run of `cl`,
capped by the pattern's upper bound when there is one. -/
def repMax (ci : Bool) (cl : CClass) (hi : Option Nat) (s : List Char) : Nat :=
  match hi with
  | none => runLen ci cl s
  | some h => min (runLen ci cl s) h

/-- The repetition counts to try, in backtracking preference order. -/
def repCounts (ci : Bool) (cl : CClass) (lo : Nat) (hi : Option Nat)
    (lazy : Bool) (s : List Char) : List Nat :=
  if lazy then countsUp lo (repMax ci cl hi s) else countsDown lo (repMax ci cl hi s)

/-- Backtracking matcher in continuation-passing style. `mtch ci r s k`
matches `r` against a prefix of `s` and passes the remaining suffix to `k`;
alternation prefers the left branch and repetition is greedy or lazy as
flagged, reproducing Python `re` backtracking for this fragment. The
continuation's `Cap` result records the text of the capturing group. -/
def mtch (ci : Bool) : Regex → List Char → (List Char → Option Cap) → Option Cap
  | .eps, s, k => k s
  | .cls cl, s, k =>
    match s with
    | [] => none
    | c :: s' => if cl.mem ci c then k s' else none
  | .seq a b, s, k => mtch ci a s (fun s' => mtch ci b s' k)
  | .alt a b, s, k =>
    match mtch ci a s k with
    | some c => some c
    | none => mtch ci b s k
  | .rep cl lo hi lazy, s, k => tryCounts k s (repCounts ci cl lo hi lazy s)
  | .group r, s, k =>
    mtch ci r s (fun s' =>
      (k s').map (fun c =>
        match c with
        | some g => some g
        | none => some (s.take (s.length - s'.length))))

/-- Model of Python `re.search`: try a match at every start position, leftmost
first; on success return the capture of the group (if the group matched). -/
def searchCap (ci : Bool) (r : Regex) : List Char → Option Cap
  | [] => mtch ci r [] (fun _ => some none)
  | c :: t =>
    match mtch ci r (c :: t) (fun _ => some none) with
    | some cap => some cap
    | none => searchCap ci r t

/-- `re.search(pattern, text, flags)` on a `String`, returning `none` when
there is no match and the group capture otherwise. -/
def reSearch (ci : Bool) (r : Regex) (text : String) : Option Cap :=
  searchCap ci r text.data

/-- Model of returning `match.group(1)` directly
(`match.group(1) if match else None`). -/
def group1 (res : Option Cap) : Option String :=
  res.bind (fun cap => cap.map (fun g => String.mk g))

/-- Model of interpolating `match.group(1)` into an f-string. -/
def groupStr (cap : Cap) : String :=
  match cap with
  | some g => String.mk g
  | none => "None"

/-! ## Pattern-building helpers -/

/-- Sequence of literal characters (a literal run inside a pattern). -/
def rstr (s : String) : Regex :=
  s.data.foldr (fun c r => Regex.seq (Regex.cls (CClass.lit c)) r) Regex.eps

/-- Concatenation of sub-patterns. -/
def rcat (l : List Regex) : Regex := l.foldr Regex.seq Regex.eps

/-- `cl+` (greedy). -/
def rplus (cl : CClass) : Regex := Regex.rep cl 1 none false

/-- `cl*` (greedy). -/
def rstar (cl : CClass) : Regex := Regex.rep cl 0 none false

/-- `cl*?` (lazy). -/
def rlazystar (cl : CClass) : Regex := Regex.rep cl 0 none true

/-- `cl{n}`. -/
def rexact (cl : CClass) (n : Nat) : Regex := Regex.rep cl n (some n) false

/-- `cl{lo,hi}` (greedy). -/
def rbetween (cl : CClass) (lo hi : Nat) : Regex := Regex.rep cl lo (some hi) false

/-- `r?` (greedy: prefer presence). -/
def ropt (r : Regex) : Regex := Regex.alt r Regex.eps

/-- `\s` -/
def spaceC : CClass := CClass.space

/-- `\d` -/
def digitC : CClass := CClass.digit

/-- `.` -/
def dotC : CClass := CClass.dot

/-- `[\d,]` -/
def digitComma : CClass := CClass.union CClass.digit (CClass.lit ',')

/-- `[:\-\s]` -/
def sepClass : CClass := CClass.union (CClass.lit ':') (CClass.union (CClass.lit '-') CClass.space)

/-- `[X\d]` -/
def xOrDigit : CClass := CClass.union (CClass.lit 'X') CClass.digit

/-- `[A-Za-z]` -/
def alphaC : CClass := CClass.union (CClass.rng 'A' 'Z') (CClass.rng 'a' 'z')

/-- `\d{2}` -/
def d2 : Regex := rexact digitC 2

/-- `/` -/
def slashR : Regex := rstr "/"

/-- `\d{2}/\d{2}/\d{4}` -/
def date8 : Regex := rcat [d2, slashR, d2, slashR, rexact digitC 4]

/-- `[\d,]+\.\d{2}` (a decimal amount with optional thousands separators). -/
def amountRe : Regex := rcat [rplus digitComma, rstr ".", rexact digitC 2]

/-! ## Result record and base-class defaults -/

/-- The seven-key mapping assembled by `BaseStatementParser.parse`. Fields
that a rule can fail to extract are `Option String` (`none` models Python
`None`, the explicit "not found" marker). -/
structure ExtractionRecord where
  bank_name : String
  card_variant : String
  card_last_4 : Option String
  billing_cycle : Option String
  payment_due_date : Option String
  total_balance : Option String
  transaction_info : Option String
deriving DecidableEq, Repr

namespace BaseStatementParser

/-- Base-class default (`return "Unknown Bank"`). -/
def get_bank_name : String := "Unknown Bank"

/-- Base-class default (`return "Standard Credit Card"`). -/
def extract_card_variant : String := "Standard Credit Card"

/-- Base-class default (`return None`). -/
def extract_card_last_4 : Option String := none

/-- Base-class default (`return None`). -/
def extract_billing_cycle : Option String := none

/-- Base-class default (`return None`). -/
def extract_due_date : Option String := none

/-- Base-class default (`return None`). -/
def extract_total_balance : Option String := none

/-- Base-class default (`return "Summary not detected"`). -/
def extract_transaction_summary : String := "Summary not detected"

end BaseStatementParser

/-- The keyword scan shared by every `extract_card_variant` override:
`for card in keywords: if card.upper() in self.text.upper(): return …` —
the first keyword whose uppercased form occurs in the uppercased text. -/
def firstKeyword (keywords : List String) (text : String) : Option String :=
  keywords.find? (fun card => containsS (upperS card) (upperS text))

/-! ## HDFC parser -/

namespace HDFCParser

def variant_keywords : List String :=
  ["Infinia", "Regalia", "Millennia", "MoneyBack", "Diners Club", "Business MoneyBack"]

def get_bank_name : String := "HDFC Bank"

def extract_card_variant (text : String) : String :=
  match firstKeyword variant_keywords text with
  | some card => "HDFC " ++ card
  | none => "HDFC Credit Card"

/-- `[X\d]{8,12}(\d{4})` — no `re.IGNORECASE` flag in the source. -/
def last4_re : Regex := rcat [rbetween xOrDigit 8 12, Regex.group (rexact digitC 4)]

def extract_card_last_4 (text : String) : Option String :=
  group1 (reSearch false last4_re text)

/-- `Statement\s+Date\s*[:\-\s]*(\d{2}/\d{2}/\d{4})`, `re.IGNORECASE`. -/
def billing_re : Regex :=
  rcat [rstr "Statement", rplus spaceC, rstr "Date", rstar spaceC, rstar sepClass,
    Regex.group date8]

def extract_billing_cycle (text : String) : Option String :=
  (reSearch true billing_re text).map (fun cap => "Ends on " ++ groupStr cap)

/-- `Payment\s+Due\s+Date\s*[:\-\s]*(\d{2}/\d{2}/\d{4})`, `re.IGNORECASE`. -/
def due_re : Regex :=
  rcat [rstr "Payment", rplus spaceC, rstr "Due", rplus spaceC, rstr "Date",
    rstar spaceC, rstar sepClass, Regex.group date8]

def extract_due_date (text : String) : Option String :=
  group1 (reSearch true due_re text)

/-- `Total\s+Amount\s+Due\s*[:\-\s]*.*?([\d,]+\.\d{2})`, `re.IGNORECASE`. -/
def balance_re : Regex :=
  rcat [rstr "Total", rplus spaceC, rstr "Amount", rplus spaceC, rstr "Due",
    rstar spaceC, rstar sepClass, rlazystar dotC, Regex.group amountRe]

def extract_total_balance (text : String) : Option String :=
  group1 (reSearch true balance_re text)

/-- `Debits\s+([\d,]+\.\d{2})`, `re.IGNORECASE`. -/
def txn_re : Regex := rcat [rstr "Debits", rplus spaceC, Regex.group amountRe]

def extract_transaction_summary (text : String) : Option String :=
  (reSearch true txn_re text).map (fun cap => "Total Debits: " ++ groupStr cap)

/-- `BaseStatementParser.parse` specialised to this subclass. -/
def parse (text : String) : ExtractionRecord :=
  { bank_name := get_bank_name
    card_variant := extract_card_variant text
    card_last_4 := extract_card_last_4 text
    billing_cycle := extract_billing_cycle text
    payment_due_date := extract_due_date text
    total_balance := extract_total_balance text
    transaction_info := extract_transaction_summary text }

end HDFCParser

/-! ## Chase parser -/

namespace ChaseParser

def variant_keywords : List String := ["Sapphire", "Freedom", "Ink", "Slate", "Amazon"]

def get_bank_name : String := "Chase Bank"

def extract_card_variant (text : String) : String :=
  match firstKeyword variant_keywords text with
  | some card => "Chase " ++ card
  | none => "Chase Credit Card"

/-- `(?:Account|ending)\s+(?:Number)?\s*(?:in|:)?\s*(\d{4})`, `re.IGNORECASE`. -/
def last4_re : Regex :=
  rcat [Regex.alt (rstr "Account") (rstr "ending"), rplus spaceC,
    ropt (rstr "Number"), rstar spaceC, ropt (Regex.alt (rstr "in") (rstr ":")),
    rstar spaceC, Regex.group (rexact digitC 4)]

def extract_card_last_4 (text : String) : Option String :=
  group1 (reSearch true last4_re text)

/-- `Opening/Closing\s+Date\s+(\d{2}/\d{2}/\d{2,4}\s*-\s*\d{2}/\d{2}/\d{2,4})`,
`re.IGNORECASE`. -/
def billing_re : Regex :=
  rcat [rstr "Opening/Closing", rplus spaceC, rstr "Date", rplus spaceC,
    Regex.group (rcat [d2, slashR, d2, slashR, rbetween digitC 2 4, rstar spaceC,
      rstr "-", rstar spaceC, d2, slashR, d2, slashR, rbetween digitC 2 4])]

def extract_billing_cycle (text : String) : Option String :=
  group1 (reSearch true billing_re text)

/-- `Payment\s+Due\s+Date\s+(\d{1,2}/\d{1,2}/\d{2,4})`, `re.IGNORECASE`. -/
def due_re : Regex :=
  rcat [rstr "Payment", rplus spaceC, rstr "Due", rplus spaceC, rstr "Date",
    rplus spaceC, Regex.group (rcat [rbetween digitC 1 2, slashR,
      rbetween digitC 1 2, slashR, rbetween digitC 2 4])]

def extract_due_date (text : String) : Option String :=
  group1 (reSearch true due_re text)

/-- `New\s+Balance\s.*?\$([\d,]+\.\d{2})`, `re.IGNORECASE`. -/
def balance_re : Regex :=
  rcat [rstr "New", rplus spaceC, rstr "Balance", Regex.cls spaceC,
    rlazystar dotC, rstr "$", Regex.group amountRe]

def extract_total_balance (text : String) : Option String :=
  group1 (reSearch true balance_re text)

/-- `Purchases\s+(?:and Adjustments)?\s*\$([\d,]+\.\d{2})`, `re.IGNORECASE`. -/
def txn_re : Regex :=
  rcat [rstr "Purchases", rplus spaceC, ropt (rstr "and Adjustments"),
    rstar spaceC, rstr "$", Regex.group amountRe]

def extract_transaction_summary (text : String) : Option String :=
  (reSearch true txn_re text).map (fun cap => "Total Purchases: $" ++ groupStr cap)

/-- `BaseStatementParser.parse` specialised to this subclass. -/
def parse (text : String) : ExtractionRecord :=
  { bank_name := get_bank_name
    card_variant := extract_card_variant text
    card_last_4 := extract_card_last_4 text
    billing_cycle := extract_billing_cycle text
    payment_due_date := extract_due_date text
    total_balance := extract_total_balance text
    transaction_info := extract_transaction_summary text }

end ChaseParser

/-! ## SBI parser -/

namespace SBIParser

def variant_keywords : List String := ["Elite", "Prime", "SimplyClick", "SimplySave", "Aurum"]

def get_bank_name : String := "SBI Card"

def extract_card_variant (text : String) : String :=
  match firstKeyword variant_keywords text with
  | some card => "SBI " ++ card
  | none => "SBI Credit Card"

/-- `XXXX\s+(\d{4})` — no `re.IGNORECASE` flag in the source. -/
def last4_re : Regex := rcat [rstr "XXXX", rplus spaceC, Regex.group (rexact digitC 4)]

def extract_card_last_4 (text : String) : Option String :=
  group1 (reSearch false last4_re text)

/-- `Statement\s+Date\s*[:\-\s]*(\d{2}/\d{2}/\d{4})`, `re.IGNORECASE`. -/
def billing_re : Regex :=
  rcat [rstr "Statement", rplus spaceC, rstr "Date", rstar spaceC, rstar sepClass,
    Regex.group date8]

def extract_billing_cycle (text : String) : Option String :=
  (reSearch true billing_re text).map
    (fun cap => "Statement generated on " ++ groupStr cap)

/-- `Payment\s+Due\s+Date\s*[:\-\s]*(\d{2}/\d{2}/\d{2,4})`, `re.IGNORECASE`. -/
def due_re : Regex :=
  rcat [rstr "Payment", rplus spaceC, rstr "Due", rplus spaceC, rstr "Date",
    rstar spaceC, rstar sepClass,
    Regex.group (rcat [d2, slashR, d2, slashR, rbetween digitC 2 4])]

def extract_due_date (text : String) : Option String :=
  group1 (reSearch true due_re text)

/-- `Total\s+Amount\s+Due\s*[:\-\s]*.*?([\d,]+\.\d{2})`, `re.IGNORECASE`. -/
def balance_re : Regex :=
  rcat [rstr "Total", rplus spaceC, rstr "Amount", rplus spaceC, rstr "Due",
    rstar spaceC, rstar sepClass, rlazystar dotC, Regex.group amountRe]

def extract_total_balance (text : String) : Option String :=
  group1 (reSearch true balance_re text)

/-- `Debits\s+([\d,]+\.\d{2})`, `re.IGNORECASE`. -/
def txn_re : Regex := rcat [rstr "Debits", rplus spaceC, Regex.group amountRe]

def extract_transaction_summary (text : String) : Option String :=
  (reSearch true txn_re text).map (fun cap => "Total Debits: " ++ groupStr cap)

/-- `BaseStatementParser.parse` specialised to this subclass. -/
def parse (text : String) : ExtractionRecord :=
  { bank_name := get_bank_name
    card_variant := extract_card_variant text
    card_last_4 := extract_card_last_4 text
    billing_cycle := extract_billing_cycle text
    payment_due_date := extract_due_date text
    total_balance := extract_total_balance text
    transaction_info := extract_transaction_summary text }

end SBIParser

/-! ## Amex parser -/

namespace AmexParser

def variant_keywords : List String := ["Platinum", "Gold", "Green", "EveryDay", "Blue Cash"]

def get_bank_name : String := "American Express"

def extract_card_variant (text : String) : String :=
  match firstKeyword variant_keywords text with
  | some card => "Amex " ++ card
  | none => "Amex Card"

/-- `ending\s+in\s+(\d{4,5})`, `re.IGNORECASE`. -/
def last4_re : Regex :=
  rcat [rstr "ending", rplus spaceC, rstr "in", rplus spaceC,
    Regex.group (rbetween digitC 4 5)]

def extract_card_last_4 (text : String) : Option String :=
  group1 (reSearch true last4_re text)

/-- `Closing\s+Date\s+([A-Za-z]{3}\s\d{1,2},?\s\d{4})`, `re.IGNORECASE`. -/
def billing_re : Regex :=
  rcat [rstr "Closing", rplus spaceC, rstr "Date", rplus spaceC,
    Regex.group (rcat [rexact alphaC 3, Regex.cls spaceC, rbetween digitC 1 2,
      ropt (rstr ","), Regex.cls spaceC, rexact digitC 4])]

def extract_billing_cycle (text : String) : Option String :=
  (reSearch true billing_re text).map (fun cap => "Closing Date: " ++ groupStr cap)

/-- `Payment\s+Due\s+Date\s+([A-Za-z]{3}\s\d{1,2},?\s\d{4})`, `re.IGNORECASE`. -/
def due_re : Regex :=
  rcat [rstr "Payment", rplus spaceC, rstr "Due", rplus spaceC, rstr "Date",
    rplus spaceC, Regex.group (rcat [rexact alphaC 3, Regex.cls spaceC,
      rbetween digitC 1 2, ropt (rstr ","), Regex.cls spaceC, rexact digitC 4])]

def extract_due_date (text : String) : Option String :=
  group1 (reSearch true due_re text)

/-- `New\s+Balance\s.*?\$([\d,]+\.\d{2})`, `re.IGNORECASE`. -/
def balance_re : Regex :=
  rcat [rstr "New", rplus spaceC, rstr "Balance", Regex.cls spaceC,
    rlazystar dotC, rstr "$", Regex.group amountRe]

def extract_total_balance (text : String) : Option String :=
  group1 (reSearch true balance_re text)

/-- `New\s+charges\s.*?\$([\d,]+\.\d{2})`, `re.IGNORECASE`. -/
def txn_re : Regex :=
  rcat [rstr "New", rplus spaceC, rstr "charges", Regex.cls spaceC,
    rlazystar dotC, rstr "$", Regex.group amountRe]

def extract_transaction_summary (text : String) : Option String :=
  (reSearch true txn_re text).map (fun cap => "New Charges: $" ++ groupStr cap)

/-- `BaseStatementParser.parse` specialised to this subclass. -/
def parse (text : String) : ExtractionRecord :=
  { bank_name := get_bank_name
    card_variant := extract_card_variant text
    card_last_4 := extract_card_last_4 text
    billing_cycle := extract_billing_cycle text
    payment_due_date := extract_due_date text
    total_balance := extract_total_balance text
    transaction_info := extract_transaction_summary text }

end AmexParser

/-! ## Citi parser -/

namespace CitiParser

def variant_keywords : List String := ["Premier", "Prestige", "Double Cash", "Rewards", "Simplicity"]

def get_bank_name : String := "Citibank"

def extract_card_variant (text : String) : String :=
  match firstKeyword variant_keywords text with
  | some card => "Citi " ++ card
  | none => "Citi Card"

/-- `(?:Account|Card)\s+.*(\d{4})`, `re.IGNORECASE`. -/
def last4_re : Regex :=
  rcat [Regex.alt (rstr "Account") (rstr "Card"), rplus spaceC, rstar dotC,
    Regex.group (rexact digitC 4)]

def extract_card_last_4 (text : String) : Option String :=
  group1 (reSearch true last4_re text)

/-- `Statement\s+Date\s+(\d{2}/\d{2}/\d{4})`, `re.IGNORECASE`. -/
def billing_re : Regex :=
  rcat [rstr "Statement", rplus spaceC, rstr "Date", rplus spaceC, Regex.group date8]

def extract_billing_cycle (text : String) : Option String :=
  (reSearch true billing_re text).map (fun cap => "Statement Date: " ++ groupStr cap)

/-- `Payment\s+Due\s+Date\s+(\d{2}/\d{2}/\d{4})`, `re.IGNORECASE`. -/
def due_re : Regex :=
  rcat [rstr "Payment", rplus spaceC, rstr "Due", rplus spaceC, rstr "Date",
    rplus spaceC, Regex.group date8]

def extract_due_date (text : String) : Option String :=
  group1 (reSearch true due_re text)

/-- `New\s+Balance\s.*?\$([\d,]+\.\d{2})`, `re.IGNORECASE`. -/
def balance_re : Regex :=
  rcat [rstr "New", rplus spaceC, rstr "Balance", Regex.cls spaceC,
    rlazystar dotC, rstr "$", Regex.group amountRe]

def extract_total_balance (text : String) : Option String :=
  group1 (reSearch true balance_re text)

/-- `Purchases\s.*?\$([\d,]+\.\d{2})`, `re.IGNORECASE`. -/
def txn_re : Regex :=
  rcat [rstr "Purchases", Regex.cls spaceC, rlazystar dotC, rstr "$",
    Regex.group amountRe]

def extract_transaction_summary (text : String) : Option String :=
  (reSearch true txn_re text).map (fun cap => "Purchases: $" ++ groupStr cap)

/-- `BaseStatementParser.parse` specialised to this subclass. -/
def parse (text : String) : ExtractionRecord :=
  { bank_name := get_bank_name
    card_variant := extract_card_variant text
    card_last_4 := extract_card_last_4 text
    billing_cycle := extract_billing_cycle text
    payment_due_date := extract_due_date text
    total_balance := extract_total_balance text
    transaction_info := extract_transaction_summary text }

end CitiParser

/-! ## Router and facade -/

/-- The five supported issuers, in the registration order of the source's
if/elif chain. -/
inductive Issuer where
  | hdfc
  | chase
  | sbi
  | amex
  | citi
deriving DecidableEq, Repr, Fintype

/-- Position of an issuer in the registration order. -/
def rank : Issuer → Nat
  | .hdfc => 0
  | .chase => 1
  | .sbi => 2
  | .amex => 3
  | .citi => 4

/-- The issuers in registration order. -/
def issuerOrder : List Issuer := [.hdfc, .chase, .sbi, .amex, .citi]

/-- The detection signature predicate of each issuer: exactly the condition of
the corresponding branch of the source's if/elif chain.  Only the Chase branch
tests against `text_content.upper()`; the other four branches test the raw
text, so their signature checks are case-sensitive. -/
def sigOf : Issuer → String → Bool
  | .hdfc, text => containsS "HDFC" text || containsS "H.D.F.C" text
  | .chase, text => containsS "CHASE" (upperS text) || containsS "JPMORGAN" (upperS text)
  | .sbi, text => containsS "SBI Card" text || containsS "State Bank of India" text
  | .amex, text => containsS "American Express" text || containsS "AMEX" text
  | .citi, text => containsS "Citi" text || containsS "Citibank" text

/-- The literal substrings of each issuer's signature. -/
def signatures : Issuer → List String
  | .hdfc => ["HDFC", "H.D.F.C"]
  | .chase => ["CHASE", "JPMORGAN"]
  | .sbi => ["SBI Card", "State Bank of India"]
  | .amex => ["American Express", "AMEX"]
  | .citi => ["Citi", "Citibank"]

/-- Whether the issuer's signature check is applied to the uppercased text
(Python `text_content.upper()`), i.e. is case-insensitive. -/
def sigCaseIns : Issuer → Bool
  | .chase => true
  | _ => false

/-- The router: the source's if/elif chain, selecting the first issuer in
registration order whose signature predicate holds. -/
def detect (text_content : String) : Option Issuer :=
  if sigOf .hdfc text_content then some .hdfc
  else if sigOf .chase text_content then some .chase
  else if sigOf .sbi text_content then some .sbi
  else if sigOf .amex text_content then some .amex
  else if sigOf .citi text_content then some .citi
  else none

/-- Dispatch: `parser = <Class>(text_content)` followed by `parser.parse()`. -/
def parseWith : Issuer → String → ExtractionRecord
  | .hdfc => HDFCParser.parse
  | .chase => ChaseParser.parse
  | .sbi => SBIParser.parse
  | .amex => AmexParser.parse
  | .citi => CitiParser.parse

/-- A parse invocation returns exactly one of the two mapping shapes of the
source: the seven-key extraction record, or the single-key error record. -/
inductive ParseResult where
  | ok (record : ExtractionRecord)
  | err (msg : String)
deriving DecidableEq, Repr

/-- Is the result the extraction-record shape? -/
def ParseResult.isOkR : ParseResult → Bool
  | .ok _ => true
  | .err _ => false

/-- Is the result the error-record shape? -/
def ParseResult.isErrR : ParseResult → Bool
  | .ok _ => false
  | .err _ => true

/-- The routing-and-assembly part of `parse_credit_card_statement`: everything
after the text has been acquired. -/
def routeAndParse (text_content : String) : ParseResult :=
  match detect text_content with
  | some i => ParseResult.ok (parseWith i text_content)
  | none => ParseResult.err "Bank not detected. Supported: HDFC, Chase, SBI, Amex, Citi"

/-- Text acquisition on success: the source concatenates
`pdf.pages[i].extract_text() + "\n"` for the first `min(2, len(pdf.pages))`
pages. -/
def buildText (pages : List String) : String :=
  ((pages.take 2).map (fun p => p ++ "\n")).foldl (fun a b => a ++ b) ""

/-- The facade `parse_credit_card_statement`. The document-to-text collaborator
(pdfplumber) is external to the core; its outcome is modelled as an
`Except`: `.ok pages` is the list of page texts, `.error e` is a raised
exception with message `str(e)`, which the source's `except` clause turns into
the error record `{"error": f"Error reading PDF: {str(e)}"}`. -/
def parse_credit_card_statement (acq : Except String (List String)) : ParseResult :=
  match acq with
  | .error e => ParseResult.err ("Error reading PDF: " ++ e)
  | .ok pages => routeAndParse (buildText pages)

/-! ## Field tables (one entry per issuer and regex-based field) -/

/-- The five regex-based fields (all fields except the constant `bank_name`
and the keyword-scan `card_variant`). -/
inductive FieldKey where
  | last4
  | billing
  | due
  | balance
  | txn
deriving DecidableEq, Repr, Fintype

/-- The `re.IGNORECASE` flag of each field extraction's `re.search` call, as
written in the source: every call passes `re.IGNORECASE` except
`HDFCParser.extract_card_last_4` and `SBIParser.extract_card_last_4`. -/
def fieldCI : Issuer → FieldKey → Bool
  | .hdfc, .last4 => false
  | .sbi, .last4 => false
  | _, _ => true

/-- The pattern of each field extraction's `re.search` call. -/
def fieldPat : Issuer → FieldKey → Regex
  | .hdfc, .last4 => HDFCParser.last4_re
  | .hdfc, .billing => HDFCParser.billing_re
  | .hdfc, .due => HDFCParser.due_re
  | .hdfc, .balance => HDFCParser.balance_re
  | .hdfc, .txn => HDFCParser.txn_re
  | .chase, .last4 => ChaseParser.last4_re
  | .chase, .billing => ChaseParser.billing_re
  | .chase, .due => ChaseParser.due_re
  | .chase, .balance => ChaseParser.balance_re
  | .chase, .txn => ChaseParser.txn_re
  | .sbi, .last4 => SBIParser.last4_re
  | .sbi, .billing => SBIParser.billing_re
  | .sbi, .due => SBIParser.due_re
  | .sbi, .balance => SBIParser.balance_re
  | .sbi, .txn => SBIParser.txn_re
  | .amex, .last4 => AmexParser.last4_re
  | .amex, .billing => AmexParser.billing_re
  | .amex, .due => AmexParser.due_re
  | .amex, .balance => AmexParser.balance_re
  | .amex, .txn => AmexParser.txn_re
  | .citi, .last4 => CitiParser.last4_re
  | .citi, .billing => CitiParser.billing_re
  | .citi, .due => CitiParser.due_re
  | .citi, .balance => CitiParser.balance_re
  | .citi, .txn => CitiParser.txn_re

/-- The `re.search` call underlying the field rule of issuer `i`, field `f`. -/
def fieldSearch (i : Issuer) (f : FieldKey) (text : String) : Option Cap :=
  reSearch (fieldCI i f) (fieldPat i f) text

/-- The complete field rule of issuer `i`, field `f` (search plus result
formatting), i.e. the corresponding `extract_…` method of the source. -/
def fieldRule : Issuer → FieldKey → String → Option String
  | .hdfc, .last4 => HDFCParser.extract_card_last_4
  | .hdfc, .billing => HDFCParser.extract_billing_cycle
  | .hdfc, .due => HDFCParser.extract_due_date
  | .hdfc, .balance => HDFCParser.extract_total_balance
  | .hdfc, .txn => HDFCParser.extract_transaction_summary
  | .chase, .last4 => ChaseParser.extract_card_last_4
  | .chase, .billing => ChaseParser.extract_billing_cycle
  | .chase, .due => ChaseParser.extract_due_date
  | .chase, .balance => ChaseParser.extract_total_balance
  | .chase, .txn => ChaseParser.extract_transaction_summary
  | .sbi, .last4 => SBIParser.extract_card_last_4
  | .sbi, .billing => SBIParser.extract_billing_cycle
  | .sbi, .due => SBIParser.extract_due_date
  | .sbi, .balance => SBIParser.extract_total_balance
  | .sbi, .txn => SBIParser.extract_transaction_summary
  | .amex, .last4 => AmexParser.extract_card_last_4
  | .amex, .billing => AmexParser.extract_billing_cycle
  | .amex, .due => AmexParser.extract_due_date
  | .amex, .balance => AmexParser.extract_total_balance
  | .amex, .txn => AmexParser.extract_transaction_summary
  | .citi, .last4 => CitiParser.extract_card_last_4
  | .citi, .billing => CitiParser.extract_billing_cycle
  | .citi, .due => CitiParser.extract_due_date
  | .citi, .balance => CitiParser.extract_total_balance
  | .citi, .txn => CitiParser.extract_transaction_summary

/-- The bank-name constant of each issuer's parser class. -/
def bankNameOf : Issuer → String
  | .hdfc => HDFCParser.get_bank_name
  | .chase => ChaseParser.get_bank_name
  | .sbi => SBIParser.get_bank_name
  | .amex => AmexParser.get_bank_name
  | .citi => CitiParser.get_bank_name

/-- The `card_variant` rule of each issuer's parser class. -/
def variantRule : Issuer → String → String
  | .hdfc => HDFCParser.extract_card_variant
  | .chase => ChaseParser.extract_card_variant
  | .sbi => SBIParser.extract_card_variant
  | .amex => AmexParser.extract_card_variant
  | .citi => CitiParser.extract_card_variant

/-- The ordered variant-keyword list of each issuer's parser class. -/
def variantKeywords : Issuer → List String
  | .hdfc => HDFCParser.variant_keywords
  | .chase => ChaseParser.variant_keywords
  | .sbi => SBIParser.variant_keywords
  | .amex => AmexParser.variant_keywords
  | .citi => CitiParser.variant_keywords

/-- The fallback label each issuer's `extract_card_variant` returns when no
keyword occurs in the text. -/
def genericVariant : Issuer → String
  | .hdfc => "HDFC Credit Card"
  | .chase => "Chase Credit Card"
  | .sbi => "SBI Credit Card"
  | .amex => "Amex Card"
  | .citi => "Citi Card"

/-! ## Concrete fixtures used by the end-to-end scenarios -/

/-- The Chase scenario fixture of the spec: a TextBlob containing exactly the
three quoted substrings. -/
def chaseScenarioText : String :=
  "JPMORGAN\nNew Balance $500.00\nOpening/Closing Date 01/01/22 - 01/31/22"

/-- The record the Chase scenario fixture parses to. -/
def chaseScenarioRecord : ExtractionRecord :=
  { bank_name := "Chase Bank"
    card_variant := "Chase Credit Card"
    card_last_4 := none
    billing_cycle := some "01/01/22 - 01/31/22"
    payment_due_date := none
    total_balance := some "500.00"
    transaction_info := none }

/-- A TextBlob that also contains the three quoted Chase substrings (and no
earlier-registered issuer's signature) but carries an additional, earlier
`New Balance $999.99` occurrence. -/
def chaseCounterText : String :=
  "JPMORGAN New Balance $999.99 New Balance $500.00 Opening/Closing Date 01/01/22 - 01/31/22"

/-- The record `chaseCounterText` parses to: the leftmost `New Balance` match
wins, so `total_balance` is `999.99`. -/
def chaseCounterRecord : ExtractionRecord :=
  { bank_name := "Chase Bank"
    card_variant := "Chase Credit Card"
    card_last_4 := none
    billing_cycle := some "01/01/22 - 01/31/22"
    payment_due_date := none
    total_balance := some "999.99"
    transaction_info := none }

/-- The record produced for a one-page document whose text is `"HDFC"`. -/
def hdfcMinimalRecord : ExtractionRecord :=
  { bank_name := "HDFC Bank"
    card_variant := "HDFC Credit Card"
    card_last_4 := none
    billing_cycle := none
    payment_due_date := none
    total_balance := none
    transaction_info := none }

/-! ## Case-model lemmas -/

/-- `Char.ofNat` round-trip below the surrogate range. -/
theorem toNat_ofNat_valid {n : Nat} (h : n < 55296) : (Char.ofNat n).toNat = n := by
  have hv : n.isValidChar := Or.inl h
  rw [Char.ofNat, dif_pos hv]
  rfl

/-- Every character is fixed by at least one of the two case maps. -/
theorem pyToLower_eq_or_pyToUpper_eq (c : Char) :
    pyToLower c = c ∨ pyToUpper c = c := by
  by_cases h : 97 ≤ c.toNat ∧ c.toNat ≤ 122
  · left
    simp only [pyToLower]
    rw [if_neg (by omega)]
  · right
    simp only [pyToUpper]
    rw [if_neg h]

/-- Lowercasing after uppercasing agrees with lowercasing directly. -/
theorem pyToLower_pyToUpper (c : Char) : pyToLower (pyToUpper c) = pyToLower c := by
  by_cases h : 97 ≤ c.toNat ∧ c.toNat ≤ 122
  · have h32 : (Char.ofNat (c.toNat - 32)).toNat = c.toNat - 32 := by
      apply toNat_ofNat_valid
      omega
    simp only [pyToUpper, if_pos h, pyToLower, h32]
    rw [if_pos (by omega), if_neg (by omega)]
    have hn : c.toNat - 32 + 32 = c.toNat := by omega
    rw [hn, Char.ofNat_toNat]
  · simp only [pyToUpper, if_neg h]

/-- Under `re.IGNORECASE`, membership only looks at the two case variants. -/
theorem mem_true_eq (cl : CClass) (c : Char) :
    CClass.mem true cl c = (cl.memCS (pyToLower c) || cl.memCS (pyToUpper c)) := by
  simp only [CClass.mem, Bool.true_and]
  rcases pyToLower_eq_or_pyToUpper_eq c with h | h <;> rw [h] <;>
    cases hcs : cl.memCS c <;> simp [hcs]

/-- Characters with the same uppercasing are interchangeable for
case-insensitive class membership. -/
theorem mem_true_congr {c d : Char} (h : pyToUpper c = pyToUpper d) (cl : CClass) :
    CClass.mem true cl c = CClass.mem true cl d := by
  have hl : pyToLower c = pyToLower d := by
    rw [← pyToLower_pyToUpper c, ← pyToLower_pyToUpper d, h]
  rw [mem_true_eq, mem_true_eq, hl, h]

/-! ## Case-invariance of matching under `re.IGNORECASE` -/

/-- Leading-run length is invariant between texts with equal uppercasings. -/
theorem runLen_congr (cl : CClass) (s : List Char) :
    ∀ (t : List Char), s.map pyToUpper = t.map pyToUpper →
      runLen true cl s = runLen true cl t := by
  induction s with
  | nil =>
    intro t h
    cases t with
    | nil => rfl
    | cons d ds => simp at h
  | cons c cs ih =>
    intro t h
    cases t with
    | nil => simp at h
    | cons d ds =>
      simp only [List.map_cons, List.cons.injEq] at h
      simp only [runLen]
      rw [mem_true_congr h.1 cl, ih ds h.2]

/-- `tryCounts` preserves match existence between texts with equal
uppercasings, given continuations that do so. -/
theorem tryCounts_congr (counts : List Nat) (s t : List Char)
    (k1 k2 : List Char → Option Cap)
    (hst : s.map pyToUpper = t.map pyToUpper)
    (hk : ∀ s' t', s'.map pyToUpper = t'.map pyToUpper →
      (k1 s').isSome = (k2 t').isSome) :
    (tryCounts k1 s counts).isSome = (tryCounts k2 t counts).isSome := by
  induction counts with
  | nil => rfl
  | cons n rest ih =>
    have hdrop : (s.drop n).map pyToUpper = (t.drop n).map pyToUpper := by
      rw [List.map_drop, List.map_drop, hst]
    have h1 := hk (s.drop n) (t.drop n) hdrop
    simp only [tryCounts]
    cases e1 : k1 (s.drop n) with
    | some c =>
      cases e2 : k2 (t.drop n) with
      | some d => simp
      | none => rw [e1, e2] at h1; simp at h1
    | none =>
      cases e2 : k2 (t.drop n) with
      | some d => rw [e1, e2] at h1; simp at h1
      | none => exact ih

/-- Under `re.IGNORECASE`, whether `mtch` succeeds depends only on the
uppercasing of the text (the capture may differ in case, not existence). -/
theorem mtch_congr (r : Regex) :
    ∀ (s t : List Char) (k1 k2 : List Char → Option Cap),
      s.map pyToUpper = t.map pyToUpper →
      (∀ s' t', s'.map pyToUpper = t'.map pyToUpper →
        (k1 s').isSome = (k2 t').isSome) →
      (mtch true r s k1).isSome = (mtch true r t k2).isSome := by
  induction r with
  | eps => intro s t k1 k2 hst hk; exact hk s t hst
  | cls cl =>
    intro s t k1 k2 hst hk
    cases s with
    | nil =>
      cases t with
      | nil => rfl
      | cons d ds => simp at hst
    | cons c cs =>
      cases t with
      | nil => simp at hst
      | cons d ds =>
        simp only [List.map_cons, List.cons.injEq] at hst
        simp only [mtch]
        rw [mem_true_congr hst.1 cl]
        cases hm : CClass.mem true cl d
        · simp
        · simpa using hk cs ds hst.2
  | seq a b iha ihb =>
    intro s t k1 k2 hst hk
    exact iha s t _ _ hst (fun s' t' h => ihb s' t' k1 k2 h hk)
  | alt a b iha ihb =>
    intro s t k1 k2 hst hk
    have h1 := iha s t k1 k2 hst hk
    simp only [mtch]
    cases e1 : mtch true a s k1 with
    | some c =>
      cases e2 : mtch true a t k2 with
      | some d => simp
      | none => rw [e1, e2] at h1; simp at h1
    | none =>
      cases e2 : mtch true a t k2 with
      | some d => rw [e1, e2] at h1; simp at h1
      | none => exact ihb s t k1 k2 hst hk
  | rep cl lo hi lazy =>
    intro s t k1 k2 hst hk
    simp only [mtch, repCounts, repMax, runLen_congr cl s t hst]
    exact tryCounts_congr _ s t k1 k2 hst hk
  | group r ih =>
    intro s t k1 k2 hst hk
    simp only [mtch]
    apply ih s t _ _ hst
    intro s' t' h
    simp only [Option.isSome_map']
    exact hk s' t' h

/-- Under `re.IGNORECASE`, whether `re.search` finds a match depends only on
the uppercasing of the text. -/
theorem searchCap_congr (r : Regex) (s : List Char) :
    ∀ (t : List Char), s.map pyToUpper = t.map pyToUpper →
      (searchCap true r s).isSome = (searchCap true r t).isSome := by
  induction s with
  | nil =>
    intro t h
    cases t with
    | nil => rfl
    | cons d ds => simp at h
  | cons c cs ih =>
    intro t h
    cases t with
    | nil => simp at h
    | cons d ds =>
      have h1 := mtch_congr r (c :: cs) (d :: ds) (fun _ => some none)
        (fun _ => some none) h (fun _ _ _ => rfl)
      simp only [searchCap]
      cases e1 : mtch true r (c :: cs) (fun _ => some none) with
      | some c1 =>
        cases e2 : mtch true r (d :: ds) (fun _ => some none) with
        | some c2 => simp
        | none => rw [e1, e2] at h1; simp at h1
      | none =>
        cases e2 : mtch true r (d :: ds) (fun _ => some none) with
        | some c2 => rw [e1, e2] at h1; simp at h1
        | none =>
          have h2 : cs.map pyToUpper = ds.map pyToUpper := by
            simp only [List.map_cons, List.cons.injEq] at h
            exact h.2
          exact ih ds h2

/-! ## Router and facade helper lemmas -/

/-- Complete case analysis of the if/elif chain: either no signature holds and
the router returns `none`, or it returns the first issuer (in registration
order) whose signature holds. -/
theorem detect_spec (text : String) :
    (detect text = none ∧ ∀ j, sigOf j text = false) ∨
    (∃ i, detect text = some i ∧ sigOf i text = true ∧
      ∀ j, rank j < rank i → sigOf j text = false) := by
  by_cases h1 : sigOf .hdfc text = true
  · refine Or.inr ⟨.hdfc, by simp [detect, h1], h1, ?_⟩
    intro j hj
    cases j <;> simp [rank] at hj
  by_cases h2 : sigOf .chase text = true
  · refine Or.inr ⟨.chase, by simp [detect, h1, h2], h2, ?_⟩
    intro j hj
    cases j <;> simp_all [rank]
  by_cases h3 : sigOf .sbi text = true
  · refine Or.inr ⟨.sbi, by simp [detect, h1, h2, h3], h3, ?_⟩
    intro j hj
    cases j <;> simp [rank] at hj <;> simp_all
  by_cases h4 : sigOf .amex text = true
  · refine Or.inr ⟨.amex, by simp [detect, h1, h2, h3, h4], h4, ?_⟩
    intro j hj
    cases j <;> simp [rank] at hj <;> simp_all
  by_cases h5 : sigOf .citi text = true
  · refine Or.inr ⟨.citi, by simp [detect, h1, h2, h3, h4, h5], h5, ?_⟩
    intro j hj
    cases j <;> simp [rank] at hj <;> simp_all
  · refine Or.inl ⟨by simp [detect, h1, h2, h3, h4, h5], ?_⟩
    intro j
    cases j <;> simp_all

/-- Every selected parser's record carries that parser's bank-name constant. -/
theorem parseWith_bank_name (i : Issuer) (text : String) :
    (parseWith i text).bank_name = bankNameOf i := by
  cases i <;> rfl

/-- The keyword scan returns `none` when no keyword occurs (case-insensitively)
in the text. -/
theorem firstKeyword_eq_none {kws : List String} {text : String}
    (h : ∀ kw ∈ kws, containsS (upperS kw) (upperS text) = false) :
    firstKeyword kws text = none := by
  unfold firstKeyword
  rw [List.find?_eq_none]
  intro x hx
  simp [h x hx]

/-! ## Claims -/

/-- **C1.** Router tie-break: for every TextBlob whose text satisfies the
signature predicates of two issuers `i` and `j` with `i` earlier in the fixed
registration order (HDFC, Chase, SBI, Amex, Citi), the router selects an
issuer whose signature holds and whose rank is at most `i`'s — in particular
it never selects the later issuer `j`.  Determinism across repeated calls is
inherent: `detect` is a pure function of the text. -/
theorem C1_router_tie_break (text : String) (i j : Issuer)
    (hi : sigOf i text = true) (_hj : sigOf j text = true) (hij : rank i < rank j) :
    ∃ k, detect text = some k ∧ sigOf k text = true ∧ rank k ≤ rank i ∧
      detect text ≠ some j := by
  rcases detect_spec text with ⟨_, hall⟩ | ⟨k, hk, hks, hkmin⟩
  · rw [hall i] at hi
    exact absurd hi (by simp)
  · have hki : rank k ≤ rank i := by
      by_contra hgt
      rw [hkmin i (by omega)] at hi
      exact absurd hi (by simp)
    refine ⟨k, hk, hks, hki, ?_⟩
    intro hkj
    rw [hk] at hkj
    have hkeq : k = j := by injection hkj
    rw [hkeq] at hki
    omega

/-- Witness for C1 at a concrete text containing both the HDFC and the Chase
signature: the selected issuer ranks no later than HDFC. -/
theorem C1_router_tie_break_witness :
    sigOf Issuer.hdfc "HDFC JPMORGAN" = true ∧
    sigOf Issuer.chase "HDFC JPMORGAN" = true ∧
    ∃ k, detect "HDFC JPMORGAN" = some k ∧ sigOf k "HDFC JPMORGAN" = true ∧
      rank k ≤ rank Issuer.hdfc ∧ detect "HDFC JPMORGAN" ≠ some Issuer.chase :=
  ⟨by decide, by decide,
    C1_router_tie_break "HDFC JPMORGAN" Issuer.hdfc Issuer.chase
      (by decide) (by decide) (by decide)⟩

/-- **C2.** When the text satisfies exactly one issuer's signature predicate,
the router selects exactly that issuer, and the assembled record's
`bank_name` is that issuer's constant name. -/
theorem C2_unique_signature (text : String) (i : Issuer)
    (hi : sigOf i text = true) (hothers : ∀ j, j ≠ i → sigOf j text = false) :
    detect text = some i ∧
    routeAndParse text = ParseResult.ok (parseWith i text) ∧
    (parseWith i text).bank_name = bankNameOf i := by
  have hdet : detect text = some i := by
    rcases detect_spec text with ⟨_, hall⟩ | ⟨k, hk, hks, _⟩
    · rw [hall i] at hi
      exact absurd hi (by simp)
    · have : k = i := by
        by_contra hne
        rw [hothers k hne] at hks
        exact absurd hks (by simp)
      rw [this] at hk
      exact hk
  refine ⟨hdet, ?_, parseWith_bank_name i text⟩
  unfold routeAndParse
  rw [hdet]

/-- Witness for C2: a text bearing only the SBI signature routes to the SBI
parser, whose record names "SBI Card". -/
theorem C2_unique_signature_witness :
    sigOf Issuer.sbi "State Bank of India" = true ∧
    detect "State Bank of India" = some Issuer.sbi ∧
    routeAndParse "State Bank of India" =
      ParseResult.ok (parseWith Issuer.sbi "State Bank of India") ∧
    (parseWith Issuer.sbi "State Bank of India").bank_name = bankNameOf Issuer.sbi :=
  ⟨by decide,
    C2_unique_signature "State Bank of India" Issuer.sbi (by decide) (by decide)⟩

/-- **C3.** A text satisfying none of the five signature predicates
short-circuits to exactly the fixed "Bank not detected" error record; no
issuer profile's record is produced. -/
theorem C3_no_signature_error (text : String) (h : ∀ i, sigOf i text = false) :
    routeAndParse text =
      ParseResult.err "Bank not detected. Supported: HDFC, Chase, SBI, Amex, Citi" := by
  have hdet : detect text = none := by
    rcases detect_spec text with ⟨hd, _⟩ | ⟨k, _, hks, _⟩
    · exact hd
    · rw [h k] at hks
      exact absurd hks (by simp)
  unfold routeAndParse
  rw [hdet]

/-- Witness for C3 at a concrete signature-free text. -/
theorem C3_no_signature_error_witness :
    (∀ i, sigOf i "hello world" = false) ∧
    routeAndParse "hello world" =
      ParseResult.err "Bank not detected. Supported: HDFC, Chase, SBI, Amex, Citi" :=
  ⟨by decide, C3_no_signature_error "hello world" (by decide)⟩

/-- **C4.** The facade never propagates an exception (it is a total function in
the embedding, mirroring the source's catch-all `except`): every acquisition
outcome yields exactly one of the two mutually exclusive result shapes, and a
failed acquisition with message `e` yields exactly the error record
`{"error": "Error reading PDF: " + e}`. -/
theorem C4_error_handling :
    (∀ e, parse_credit_card_statement (Except.error e) =
      ParseResult.err ("Error reading PDF: " ++ e)) ∧
    (∀ acq, (parse_credit_card_statement acq).isOkR =
      !(parse_credit_card_statement acq).isErrR) := by
  refine ⟨fun e => rfl, fun acq => ?_⟩
  cases acq with
  | error e => rfl
  | ok pages =>
    simp only [parse_credit_card_statement]
    unfold routeAndParse
    cases detect (buildText pages) <;> rfl

/-- **C5 (amended).** The `card_variant` rule never produces a "not found"
marker (its type is `String`, mirroring the source's unconditional `return`):
when none of the issuer's ordered product keywords occurs case-insensitively
in the text, it returns that issuer's generic fallback label — which is
`"HDFC Credit Card"`, `"Chase Credit Card"`, `"SBI Credit Card"` for the
first three issuers but `"Amex Card"` and `"Citi Card"` (not
`"<Issuer> Credit Card"`) for the last two. -/
theorem C5_variant_fallback (i : Issuer) (text : String)
    (h : ∀ kw ∈ variantKeywords i, containsS (upperS kw) (upperS text) = false) :
    variantRule i text = genericVariant i := by
  cases i <;> simp only [variantKeywords] at h <;>
    simp only [variantRule, genericVariant, HDFCParser.extract_card_variant,
      ChaseParser.extract_card_variant, SBIParser.extract_card_variant,
      AmexParser.extract_card_variant, CitiParser.extract_card_variant,
      firstKeyword_eq_none h]

/-- Witness for C5 on the empty text, where no keyword occurs. -/
theorem C5_variant_fallback_witness :
    (∀ kw ∈ variantKeywords Issuer.amex, containsS (upperS kw) (upperS "") = false) ∧
    variantRule Issuer.amex "" = genericVariant Issuer.amex :=
  ⟨by decide, C5_variant_fallback Issuer.amex "" (by decide)⟩

/-- **C5 counterexample.** The claim as stated — the fallback is always the
generic `"<Issuer> Credit Card"` label — fails for Amex: a keyword-free text
yields `"Amex Card"`, not `"Amex Credit Card"` (nor
`"American Express Credit Card"`). -/
theorem C5_counterexample :
    (∀ kw ∈ variantKeywords Issuer.amex,
      containsS (upperS kw) (upperS "no keywords here") = false) ∧
    variantRule Issuer.amex "no keywords here" = "Amex Card" ∧
    variantRule Issuer.amex "no keywords here" ≠ "Amex Credit Card" ∧
    variantRule Issuer.amex "no keywords here" ≠ "American Express Credit Card" := by
  refine ⟨by decide, by decide, by decide, by decide⟩

/-- **C6.** For every issuer and every regex-based field rule (`card_last_4`,
`billing_cycle`, `payment_due_date`, `total_balance`, `transaction_info`):
when the rule's pattern has no match in the text, the rule returns the
explicit "not found" marker (`None`).  The rules are total functions in the
embedding — no exception path exists, mirroring the source where a
non-matching `re.search` returns `None` rather than raising. -/
theorem C6_absent_pattern_not_found (i : Issuer) (f : FieldKey) (text : String)
    (h : fieldSearch i f text = none) : fieldRule i f text = none := by
  cases i <;> cases f <;>
    (simp only [fieldSearch, fieldPat, fieldCI] at h
     simp only [fieldRule, group1,
       HDFCParser.extract_card_last_4, HDFCParser.extract_billing_cycle,
       HDFCParser.extract_due_date, HDFCParser.extract_total_balance,
       HDFCParser.extract_transaction_summary,
       ChaseParser.extract_card_last_4, ChaseParser.extract_billing_cycle,
       ChaseParser.extract_due_date, ChaseParser.extract_total_balance,
       ChaseParser.extract_transaction_summary,
       SBIParser.extract_card_last_4, SBIParser.extract_billing_cycle,
       SBIParser.extract_due_date, SBIParser.extract_total_balance,
       SBIParser.extract_transaction_summary,
       AmexParser.extract_card_last_4, AmexParser.extract_billing_cycle,
       AmexParser.extract_due_date, AmexParser.extract_total_balance,
       AmexParser.extract_transaction_summary,
       CitiParser.extract_card_last_4, CitiParser.extract_billing_cycle,
       CitiParser.extract_due_date, CitiParser.extract_total_balance,
       CitiParser.extract_transaction_summary]
     rw [h]
     rfl)

/-- Witness for C6: a text in which the HDFC due-date pattern is absent maps
to the `none` marker. -/
theorem C6_absent_pattern_not_found_witness :
    fieldSearch Issuer.hdfc FieldKey.due "no due date here" = none ∧
    fieldRule Issuer.hdfc FieldKey.due "no due date here" = none :=
  ⟨by decide,
    C6_absent_pattern_not_found Issuer.hdfc FieldKey.due "no due date here" (by decide)⟩

/-- **C7 (amended).** Every field-extraction `re.search` call except
`HDFCParser.extract_card_last_4` and `SBIParser.extract_card_last_4` passes
`re.IGNORECASE`, and for those calls changing the letter case of the text
never changes whether the pattern matches.  The two excluded rules match the
masking run `[X\d]`/`XXXX` case-sensitively (see the counterexample), so the
original claim's "every field extraction" is too strong. -/
theorem C7_case_insensitive_fields (i : Issuer) (f : FieldKey)
    (hx1 : ¬(i = Issuer.hdfc ∧ f = FieldKey.last4))
    (hx2 : ¬(i = Issuer.sbi ∧ f = FieldKey.last4))
    (s t : String) (h : upperS s = upperS t) :
    (fieldSearch i f s).isSome = (fieldSearch i f t).isSome := by
  have hci : fieldCI i f = true := by
    cases i <;> cases f <;> simp_all [fieldCI]
  have hd : s.data.map pyToUpper = t.data.map pyToUpper := congrArg String.data h
  simp only [fieldSearch, reSearch, hci]
  exact searchCap_congr (fieldPat i f) s.data t.data hd

/-- Witness for C7: the Chase billing-cycle search succeeds on a lowercase
text exactly when it succeeds on its uppercase variant. -/
theorem C7_case_insensitive_fields_witness :
    upperS "opening/closing date 01/01/22 - 01/31/22" =
      upperS "OPENING/CLOSING DATE 01/01/22 - 01/31/22" ∧
    (fieldSearch Issuer.chase FieldKey.billing
      "opening/closing date 01/01/22 - 01/31/22").isSome =
    (fieldSearch Issuer.chase FieldKey.billing
      "OPENING/CLOSING DATE 01/01/22 - 01/31/22").isSome :=
  ⟨by decide,
    C7_case_insensitive_fields Issuer.chase FieldKey.billing (by decide) (by decide)
      "opening/closing date 01/01/22 - 01/31/22"
      "OPENING/CLOSING DATE 01/01/22 - 01/31/22" (by decide)⟩

/-- **C7 counterexample.** The claim as stated — every field-extraction search
is case-insensitive — fails: `HDFCParser.extract_card_last_4` has no
`re.IGNORECASE` flag, and lowering the case of the masked card number makes
its match disappear. -/
theorem C7_counterexample :
    upperS "XXXXXXXX1234" = upperS "xxxxxxxx1234" ∧
    fieldCI Issuer.hdfc FieldKey.last4 = false ∧
    (fieldSearch Issuer.hdfc FieldKey.last4 "XXXXXXXX1234").isSome = true ∧
    (fieldSearch Issuer.hdfc FieldKey.last4 "xxxxxxxx1234").isSome = false ∧
    fieldRule Issuer.hdfc FieldKey.last4 "XXXXXXXX1234" = some "1234" ∧
    fieldRule Issuer.hdfc FieldKey.last4 "xxxxxxxx1234" = none := by
  refine ⟨by decide, by decide, by decide, by decide, by decide, by decide⟩

/-- **C8 (amended).** Each router signature predicate is satisfied exactly
when one of its literal substrings occurs anywhere in the text, where the
occurrence test is applied to the uppercased text exactly for Chase
(`"CHASE" in text_content.upper()`): Chase's check is the only
case-insensitive one, and the other four are case-sensitive — not, as the
original claim says, "most case-insensitive". -/
theorem C8_signature_predicates (i : Issuer) (text : String) :
    sigOf i text = (signatures i).any (fun n =>
      if sigCaseIns i then containsS n (upperS text) else containsS n text) ∧
    sigCaseIns i = (i == Issuer.chase) := by
  cases i <;> simp [sigOf, signatures, sigCaseIns]

/-- **C8 counterexample.** Four of the five signature checks distinguish the
letter case of the text (their lowercase variants are not detected), and only
Chase's check is case-insensitive — refuting "most are case-insensitive". -/
theorem C8_counterexample :
    (upperS "hdfc" = upperS "HDFC" ∧
      sigOf Issuer.hdfc "HDFC" = true ∧ sigOf Issuer.hdfc "hdfc" = false) ∧
    (upperS "sbi card" = upperS "SBI Card" ∧
      sigOf Issuer.sbi "SBI Card" = true ∧ sigOf Issuer.sbi "sbi card" = false) ∧
    (upperS "amex" = upperS "AMEX" ∧
      sigOf Issuer.amex "AMEX" = true ∧ sigOf Issuer.amex "amex" = false) ∧
    (upperS "citi" = upperS "Citi" ∧
      sigOf Issuer.citi "Citi" = true ∧ sigOf Issuer.citi "citi" = false) ∧
    (sigOf Issuer.chase "chase" = true ∧ sigOf Issuer.chase "CHASE" = true) := by
  refine ⟨⟨by decide, by decide, by decide⟩, ⟨by decide, by decide, by decide⟩,
    ⟨by decide, by decide, by decide⟩, ⟨by decide, by decide, by decide⟩,
    ⟨by decide, by decide⟩⟩

/-- **C9 (amended).** For the Chase scenario fixture — the TextBlob consisting
of exactly the three quoted lines, in which the quoted `New Balance` and
`Opening/Closing Date` occurrences are the leftmost matches of their
patterns — the result is the Chase extraction record with
`bank_name = "Chase Bank"`, `total_balance = "500.00"` and
`billing_cycle = "01/01/22 - 01/31/22"`.  (The original universal claim fails
when an earlier `New Balance` occurrence precedes the quoted one; see the
counterexample.) -/
theorem C9_chase_scenario :
    containsS "JPMORGAN" chaseScenarioText = true ∧
    containsS "New Balance $500.00" chaseScenarioText = true ∧
    containsS "Opening/Closing Date 01/01/22 - 01/31/22" chaseScenarioText = true ∧
    sigOf Issuer.hdfc chaseScenarioText = false ∧
    routeAndParse chaseScenarioText = ParseResult.ok chaseScenarioRecord ∧
    chaseScenarioRecord.bank_name = "Chase Bank" ∧
    chaseScenarioRecord.total_balance = some "500.00" ∧
    chaseScenarioRecord.billing_cycle = some "01/01/22 - 01/31/22" := by
  refine ⟨by decide, by decide, by decide, by decide, by decide, rfl, rfl, rfl⟩

/-- **C9 counterexample.** A TextBlob containing all three quoted substrings
(and no earlier-registered issuer's signature) whose parse nevertheless has
`total_balance = "999.99"`, because an earlier `New Balance $999.99`
occurrence wins the leftmost-match rule — so the claim's universal
quantification over "every TextBlob containing the substrings" is false. -/
theorem C9_counterexample :
    containsS "JPMORGAN" chaseCounterText = true ∧
    containsS "New Balance $500.00" chaseCounterText = true ∧
    containsS "Opening/Closing Date 01/01/22 - 01/31/22" chaseCounterText = true ∧
    sigOf Issuer.hdfc chaseCounterText = false ∧
    routeAndParse chaseCounterText = ParseResult.ok chaseCounterRecord ∧
    chaseCounterRecord.total_balance = some "999.99" ∧
    some "999.99" ≠ some "500.00" := by
  refine ⟨by decide, by decide, by decide, by decide, by decide, rfl, by decide⟩

/-- **C10.** The base-profile defaults are unreachable through the public
parse operation: every non-error result of `parse_credit_card_statement`
carries the bank-name constant of one of the five registered parsers — in
particular never `"Unknown Bank"`. -/
theorem C10_bank_name_invariant (acq : Except String (List String))
    (rec : ExtractionRecord)
    (h : parse_credit_card_statement acq = ParseResult.ok rec) :
    rec.bank_name = "HDFC Bank" ∨ rec.bank_name = "Chase Bank" ∨
    rec.bank_name = "SBI Card" ∨ rec.bank_name = "American Express" ∨
    rec.bank_name = "Citibank" := by
  cases acq with
  | error e => simp [parse_credit_card_statement] at h
  | ok pages =>
    simp only [parse_credit_card_statement] at h
    unfold routeAndParse at h
    cases hd : detect (buildText pages) with
    | none => rw [hd] at h; simp at h
    | some i =>
      rw [hd] at h
      have hrec : rec = parseWith i (buildText pages) := by
        injection h with h'
        exact h'.symm
      rw [hrec, parseWith_bank_name]
      cases i <;> simp [bankNameOf, HDFCParser.get_bank_name, ChaseParser.get_bank_name,
        SBIParser.get_bank_name, AmexParser.get_bank_name, CitiParser.get_bank_name]

/-- Witness for C10 at a one-page document whose text is `"HDFC"`. -/
theorem C10_bank_name_invariant_witness :
    hdfcMinimalRecord.bank_name = "HDFC Bank" ∨
    hdfcMinimalRecord.bank_name = "Chase Bank" ∨
    hdfcMinimalRecord.bank_name = "SBI Card" ∨
    hdfcMinimalRecord.bank_name = "American Express" ∨
    hdfcMinimalRecord.bank_name = "Citibank" :=
  C10_bank_name_invariant (Except.ok ["HDFC"]) hdfcMinimalRecord (by decide)
